import Mathlib

/-!
Verification of the `create-worktree.sh` shell script and the `Home`
landing-page component of the nomadhub repository.

The shell script is embedded at two levels.

Commands are an AST (`Cmd`) over words built from literal text, variable
references, positional parameters, `$#`, and command substitutions, with
a big-step interpreter (`exec`) parameterised by a `World` supplying the
exit statuses of the external collaborators (`git worktree add`, the
success of `cd`, and `claude`).  `createWorktreeScript` records the block
structure of the script text in full — including the second `if`'s
git/cd/claude block — and `runScript` executes it; this is the
hypothetical completed script, used for structural facts about the text
and for facts that hold a fortiori of the real file.

The file itself, however, ends at `return 1` on line 16 with no closing
`fi` for the second `if`.  Bash reads a script one complete top-level
command at a time: the guard `if` (which is complete) and the two
assignments execute, and then bash, finding end of input while still
inside the second `if`, aborts with `syntax error: unexpected end of
file` and exit status 2 — the git/cd/claude block is dead code.  This is
modelled faithfully by `scriptItems` (the file's top-level items, the
last being the unterminated `if`, a parse error rather than a command)
and `runItems`/`runScriptFile`.  The behaviour is the same whether the
file is executed or sourced.  A `return n` reached at top level is
modelled as ending the run with status `n` (its effect when sourced); in
`runScriptFile` no `return` is ever reached.
-/

namespace Nomadhub

/-- A piece of a shell word, before expansion. -/
inductive WordPart where
  | lit (s : String)
  | var (name : String)
  | argc
  | arg (i : Nat)
  | cmdSub (cmdName : String)
deriving DecidableEq, Repr

/-- A shell word is a sequence of parts concatenated after expansion. -/
def Word := List WordPart

/-- External tool invocations the script performs, in order. -/
inductive ExtCall where
  | git (path : String)
  | cd (path : String)
  | claude
deriving DecidableEq, Repr

/-- Shell variable lookup: an unset variable expands to the empty string. -/
def lookupVar : List (String × String) → String → String
  | [], _ => ""
  | (y, v) :: t, x => if y = x then v else lookupVar t x

/-- Interpreter state: positional parameters, shell variables, current
directory, lines echoed to stdout, and the trace of tool invocations. -/
structure ShState where
  args : List String
  env : List (String × String)
  cwd : String
  output : List String
  trace : List ExtCall
deriving Repr

/-- Relative `cd` targets resolve against the current directory; a target
beginning with `/` is absolute. -/
def resolvePath (cwd p : String) : String :=
  if p.data.head? = some '/' then p else cwd ++ "/" ++ p

/-- Expansion of one word part in a state. -/
def expandPart (s : ShState) : WordPart → String
  | .lit t => t
  | .var x => lookupVar s.env x
  | .argc => toString s.args.length
  | .arg i => s.args.getD (i - 1) ""
  | .cmdSub "pwd" => s.cwd
  | .cmdSub _ => ""

/-- Expansion of a word: concatenation of its expanded parts. -/
def expandWord (s : ShState) : Word → String
  | [] => ""
  | p :: ps => expandPart s p ++ expandWord s ps

/-- The `[` builtin on its (already expanded) arguments.  It demands a
final `]` argument; without one it fails at run time with status 2
(reporting a missing `]`).  With `a -eq b ]` it compares numerically. -/
def testEval (args : List String) : Nat :=
  match args.getLast? with
  | some "]" =>
    match args.dropLast with
    | [a, "-eq", b] =>
      match a.toNat?, b.toNat? with
      | some x, some y => if x = y then 0 else 1
      | _, _ => 2
    | [a] => if a = "" then 1 else 0
    | _ => 2
  | _ => 2

/-- Commands of the script's fragment of shell. -/
inductive Cmd where
  | skip
  | echo (msg : Word)
  | ret (n : Nat)
  | assign (x : String) (w : Word)
  | testCmd (ws : List Word)
  | gitWorktreeAdd (w : Word)
  | cdCmd (w : Word)
  | claudeCmd
  | seq (c1 c2 : Cmd)
  | ifThenElse (cond thn els : Cmd)
  | orElse (c1 c2 : Cmd)

/-- Result of running a command: continue with an exit status, or
terminate the whole run (a `return`) with an exit code. -/
inductive Outcome where
  | next (s : ShState) (status : Nat)
  | quit (s : ShState) (code : Nat)

/-- Exit statuses of the external collaborators, supplied by the
environment the script runs in. -/
structure World where
  gitStatus : String → Nat
  cdOk : String → String → Bool
  claudeStatus : Nat

/-- Big-step execution of a command.  External commands append to the
trace; `echo` appends to the output; `return` quits with its code. -/
def exec (w : World) : Cmd → ShState → Outcome
  | .skip, s => .next s 0
  | .echo m, s => .next { s with output := s.output ++ [expandWord s m] } 0
  | .ret n, s => .quit s n
  | .assign x wd, s => .next { s with env := (x, expandWord s wd) :: s.env } 0
  | .testCmd ws, s => .next s (testEval (ws.map (expandWord s)))
  | .gitWorktreeAdd wd, s =>
    let p := expandWord s wd
    .next { s with trace := s.trace ++ [.git p] } (w.gitStatus p)
  | .cdCmd wd, s =>
    let p := expandWord s wd
    let s' := { s with trace := s.trace ++ [.cd p] }
    if w.cdOk s.cwd p then .next { s' with cwd := resolvePath s.cwd p } 0
    else .next s' 1
  | .claudeCmd, s => .next { s with trace := s.trace ++ [.claude] } w.claudeStatus
  | .seq c1 c2, s =>
    match exec w c1 s with
    | .next s' _ => exec w c2 s'
    | .quit s' n => .quit s' n
  | .ifThenElse c t e, s =>
    match exec w c s with
    | .next s' st => if st = 0 then exec w t s' else exec w e s'
    | .quit s' n => .quit s' n
  | .orElse c1 c2, s =>
    match exec w c1 s with
    | .next s' st => if st = 0 then .next s' 0 else exec w c2 s'
    | .quit s' n => .quit s' n

/-- The malformed guard test `[ $# -eq 0]`: the missing space makes the
closing bracket part of the third operand word `0]`. -/
def guardWords : List Word :=
  [[.argc], [.lit "-eq"], [.lit "0]"]]

/-- The block structure of the text of `src/utils/create-worktree.sh`:

    if [ $# -eq 0]; then
       echo "Error: Worktree name needed!"
       return 1
    fi
    ARGUMENT=$1
    WORKTREE_PATH="../${폴더이름}$ARGUMENT"
    if git worktree add "$WORKTREE_PATH"; then
       echo "Worktree added successfully: $WORKTREE_PATH"
       cd "WORKTREE_PATH" || return 1
       echo "Directory change succeeded: $(pwd)"
       claude
    else
       echo "Worktree creation failed"
       return 1

The file ends right there, at `return 1` with no newline: the closing
`fi` of the second `if` is missing, so this full block structure exists
only as text — bash never parses the second `if` to completion, and
executing this AST (`runScript`) is the hypothetical completed script,
not the file.  The faithful model of the file is `scriptItems` and
`runScriptFile` below.  This definition serves the structural claims
about the text (call sites, substitutions, status checks) and the
a-fortiori ones. -/
def createWorktreeScript : Cmd :=
  .seq
    (.ifThenElse (.testCmd guardWords)
      (.seq (.echo [.lit "Error: Worktree name needed!"]) (.ret 1))
      .skip)
    (.seq (.assign "ARGUMENT" [.arg 1])
      (.seq (.assign "WORKTREE_PATH" [.lit "../", .var "폴더이름", .var "ARGUMENT"])
        (.ifThenElse (.gitWorktreeAdd [.var "WORKTREE_PATH"])
          (.seq (.echo [.lit "Worktree added successfully: ", .var "WORKTREE_PATH"])
            (.seq (.orElse (.cdCmd [.lit "WORKTREE_PATH"]) (.ret 1))
              (.seq (.echo [.lit "Directory change succeeded: ", .cmdSub "pwd"])
                .claudeCmd)))
          (.seq (.echo [.lit "Worktree creation failed"]) (.ret 1)))))

/-- Initial state of an invocation: positional parameters `args`, ambient
shell variables `env`, current directory `cwd`. -/
def initState (args : List String) (env : List (String × String)) (cwd : String) : ShState :=
  { args := args, env := env, cwd := cwd, output := [], trace := [] }

/-- Run the hypothetical completed script (the full block structure, as
if the missing `fi` were present) on an invocation; yields the final
state and the exit status of the run. -/
def runScript (w : World) (args : List String) (env : List (String × String))
    (cwd : String) : ShState × Nat :=
  match exec w createWorktreeScript (initState args env cwd) with
  | .next s st => (s, st)
  | .quit s n => (s, n)

/-- The worktree path the script computes for an invocation:
`"../${폴더이름}$ARGUMENT"` with `ARGUMENT=$1`. -/
def worktreePathOf (args : List String) (env : List (String × String)) : String :=
  "../" ++ lookupVar env "폴더이름" ++ args.getD 0 ""

/-- Closed-form evaluation of the hypothetical completed script on an
arbitrary invocation.  The malformed guard always exits with status 2,
so every run falls through to the `git worktree add` call; the three
possible runs are then decided by the exit status of `git worktree add`
and of `cd`. -/
theorem runScript_eq (w : World) (args : List String) (env : List (String × String))
    (cwd : String) :
    runScript w args env cwd =
      (if w.gitStatus (worktreePathOf args env) = 0 then
        if w.cdOk cwd "WORKTREE_PATH" then
          ({ args := args,
             env := ("WORKTREE_PATH", worktreePathOf args env) ::
               ("ARGUMENT", args.getD 0 "") :: env,
             cwd := cwd ++ "/" ++ "WORKTREE_PATH",
             output := ["Worktree added successfully: " ++ worktreePathOf args env,
                        "Directory change succeeded: " ++ (cwd ++ "/" ++ "WORKTREE_PATH")],
             trace := [.git (worktreePathOf args env), .cd "WORKTREE_PATH", .claude] },
           w.claudeStatus)
        else
          ({ args := args,
             env := ("WORKTREE_PATH", worktreePathOf args env) ::
               ("ARGUMENT", args.getD 0 "") :: env,
             cwd := cwd,
             output := ["Worktree added successfully: " ++ worktreePathOf args env],
             trace := [.git (worktreePathOf args env), .cd "WORKTREE_PATH"] }, 1)
      else
        ({ args := args,
           env := ("WORKTREE_PATH", worktreePathOf args env) ::
             ("ARGUMENT", args.getD 0 "") :: env,
           cwd := cwd,
           output := ["Worktree creation failed"],
           trace := [.git (worktreePathOf args env)] }, 1)) := by
  simp +decide [runScript, createWorktreeScript, exec, initState, guardWords, expandWord,
    expandPart, testEval, lookupVar, resolvePath, worktreePathOf, String.append_empty,
    String.append_assoc]
  by_cases hg : w.gitStatus ("../" ++ (lookupVar env "폴더이름" ++ args[0]?.getD "")) = 0
  · by_cases hc : w.cdOk cwd "WORKTREE_PATH" = true
    · simp +decide [hg, hc]
    · simp +decide [hg, hc]
  · simp +decide [hg]

/-- One top-level unit of the script file as bash reads it: either a
complete command, or the trailing text that fails to parse — here the
second `if`, unterminated at end of file, on which bash reports
`syntax error: unexpected end of file` and aborts with status 2. -/
inductive Item where
  | cmd (c : Cmd)
  | unterminated

/-- The top-level items of `src/utils/create-worktree.sh` exactly as bash
reads the file: the guard `if` (lines 2-5, complete — its `fi` is on
line 5), the two assignments (lines 6-7), and then the second `if`
(line 9 to the end of the file), which never reaches a closing `fi`: the
file ends at `return 1`, so this last item is a parse error, not a
command, and everything inside it — the git/cd/claude block and both
echoes — is dead text. -/
def scriptItems : List Item :=
  [.cmd (.ifThenElse (.testCmd guardWords)
    (.seq (.echo [.lit "Error: Worktree name needed!"]) (.ret 1)) .skip),
   .cmd (.assign "ARGUMENT" [.arg 1]),
   .cmd (.assign "WORKTREE_PATH" [.lit "../", .var "폴더이름", .var "ARGUMENT"]),
   .unterminated]

/-- Execute top-level items in order, as bash does: each complete command
runs and its status becomes the last status; reaching the unterminated
`if` aborts the run with the syntax-error status 2; a top-level `return`
ends the run with its code. -/
def runItems (w : World) : List Item → ShState → Nat → ShState × Nat
  | [], s, st => (s, st)
  | .cmd c :: rest, s, _ =>
    match exec w c s with
    | .next s' st => runItems w rest s' st
    | .quit s' n => (s', n)
  | .unterminated :: _, s, _ => (s, 2)

/-- Run the script file on an invocation: the faithful model of
`create-worktree.sh` as it stands, missing `fi` included. -/
def runScriptFile (w : World) (args : List String) (env : List (String × String))
    (cwd : String) : ShState × Nat :=
  runItems w scriptItems (initState args env cwd) 0

/-- Closed-form evaluation of the script file on an arbitrary invocation:
the guard `[` fails at run time with status 2 (its branch skipped), the
two assignments execute, and the run aborts at the unterminated second
`if` with status 2 — before any tool invocation, with nothing printed
and the directory unchanged. -/
theorem runScriptFile_eq (w : World) (args : List String)
    (env : List (String × String)) (cwd : String) :
    runScriptFile w args env cwd =
      ({ args := args,
         env := ("WORKTREE_PATH", worktreePathOf args env) ::
           ("ARGUMENT", args.getD 0 "") :: env,
         cwd := cwd, output := [], trace := [] }, 2) := by
  simp +decide [runScriptFile, scriptItems, runItems, exec, initState, guardWords,
    expandWord, expandPart, testEval, lookupVar, worktreePathOf, String.append_empty,
    String.append_assoc]

/-- The `[ $# -eq 0]` test exits with status 2 in every state: whatever
`$#` expands to, the final word is `0]`, not `]`, so the `[` builtin
reports a missing `]` at run time. -/
theorem guard_always_two (s : ShState) : testEval (guardWords.map (expandWord s)) = 2 := by
  simp +decide [guardWords, testEval, expandWord, expandPart]

/-- Strings of different lengths are different. -/
theorem append_ne_of_length (a p b : String) (h : a.length + p.length ≠ b.length) :
    a ++ p ≠ b := fun he => h (by rw [← String.length_append, he])

theorem err_ne_success_msg (p : String) :
    "Error: Worktree name needed!" ≠ "Worktree added successfully: " ++ p := by
  have h1 : "Worktree added successfully: ".length = 29 := by decide
  have h2 : "Error: Worktree name needed!".length = 28 := by decide
  exact fun he => append_ne_of_length _ p _ (by omega) he.symm

theorem err_ne_dir_msg (cwd : String) :
    "Error: Worktree name needed!" ≠
      "Directory change succeeded: " ++ (cwd ++ "/" ++ "WORKTREE_PATH") := by
  have h1 : "Directory change succeeded: ".length = 28 := by decide
  have h2 : "Error: Worktree name needed!".length = 28 := by decide
  have h3 : ("/" : String).length = 1 := by decide
  have h4 : ("WORKTREE_PATH" : String).length = 13 := by decide
  refine fun he => append_ne_of_length _ _ _ ?_ he.symm
  rw [String.length_append, String.length_append]
  omega

/-- An environment in which `git worktree add` and `cd` both succeed. -/
def wOK : World := ⟨fun _ => 0, fun _ _ => true, 0⟩

/-- An environment in which `git worktree add` fails with status 1. -/
def wGitFail : World := ⟨fun _ => 1, fun _ _ => true, 0⟩

/-- An environment in which `git worktree add` succeeds but `cd` fails. -/
def wCdFail : World := ⟨fun _ => 0, fun _ _ => false, 0⟩

/-- Even in the hypothetical completed script — where, unlike in the
real file, the second block executes and does print — no run ever puts
the intended guard message on stdout; for the real file, whose runs
print nothing at all, this holds a fortiori. -/
theorem err_msg_never_printed (w : World) (args : List String)
    (env : List (String × String)) (cwd : String) :
    "Error: Worktree name needed!" ∉ (runScript w args env cwd).1.output := by
  rw [runScript_eq]
  split
  · split
    · simp only [List.mem_cons, List.not_mem_nil, or_false]
      push_neg
      exact ⟨err_ne_success_msg _, err_ne_dir_msg _⟩
    · simp only [List.mem_cons, List.not_mem_nil, or_false]
      exact err_ne_success_msg _
  · simp only [List.mem_cons, List.not_mem_nil, or_false]
    decide

/-- C1: an invocation with zero arguments never reaches the printing of
"Error: Worktree name needed!": the malformed test `[ $# -eq 0]` exits
with status 2 instead of detecting the zero-argument case, so the guard
branch is skipped on every run. -/
theorem C1_zero_arg_message_unreachable (w : World) (env : List (String × String))
    (cwd : String) :
    testEval (guardWords.map (expandWord (initState [] env cwd))) = 2 ∧
    "Error: Worktree name needed!" ∉ (runScript w [] env cwd).1.output :=
  ⟨guard_always_two _, err_msg_never_printed w [] env cwd⟩

/-- The target words of the `cd` call sites of a command, in textual
order. -/
def cdTargets : Cmd → List Word
  | .cdCmd w => [w]
  | .seq c1 c2 => cdTargets c1 ++ cdTargets c2
  | .ifThenElse c t e => cdTargets c ++ cdTargets t ++ cdTargets e
  | .orElse c1 c2 => cdTargets c1 ++ cdTargets c2
  | _ => []

/-- The kinds of external tool call sites. -/
inductive ToolKind where
  | git
  | cd
  | claude
deriving DecidableEq, Repr

/-- The external tool call sites of a command, in textual order. -/
def toolSites : Cmd → List ToolKind
  | .gitWorktreeAdd _ => [.git]
  | .cdCmd _ => [.cd]
  | .claudeCmd => [.claude]
  | .seq c1 c2 => toolSites c1 ++ toolSites c2
  | .ifThenElse c t e => toolSites c ++ toolSites t ++ toolSites e
  | .orElse c1 c2 => toolSites c1 ++ toolSites c2
  | _ => []

/-- C3 counterexample: on a concrete invocation (argument `feat`, every
external command willing to succeed) the run changes into no directory
at all — the trace holds no invocation and the final directory is the
starting one — so the directory changed into is not the fixed name
`WORKTREE_PATH`: there is none. -/
theorem C3_counterexample_no_cd_happens :
    (runScriptFile wOK ["feat"] [] "/repo").1.trace = [] ∧
    (runScriptFile wOK ["feat"] [] "/repo").1.cwd = "/repo" := by
  decide

/-- C3 amended: the script text's one `cd` call site does target the
unexpanded literal `WORKTREE_PATH` — a word with no variable reference
in it, which expands to the same fixed string in every state, whatever
the argument — but no invocation ever reaches it: the parse error at the
unterminated second `if` precedes the `cd`, so no run performs any `cd`
or changes directory at all. -/
theorem C3_cd_literal_but_dead (w : World) (args : List String)
    (env : List (String × String)) (cwd : String) (s : ShState) :
    cdTargets createWorktreeScript = [[WordPart.lit "WORKTREE_PATH"]] ∧
    expandWord s [WordPart.lit "WORKTREE_PATH"] = "WORKTREE_PATH" ∧
    (∀ p, ExtCall.cd p ∉ (runScriptFile w args env cwd).1.trace) ∧
    (runScriptFile w args env cwd).1.cwd = cwd := by
  refine ⟨rfl, ?_, ?_, ?_⟩
  · simp [expandWord, expandPart, String.append_empty]
  · rw [runScriptFile_eq]
    simp
  · rw [runScriptFile_eq]

/-- C4 counterexample: the concrete invocation performs no tool
invocation at all, let alone exactly the claimed three: the parse error
at the unterminated second `if` aborts the run before the first call
site. -/
theorem C4_counterexample_empty_trace :
    (runScriptFile wOK ["feat"] [] "/repo").1.trace = [] ∧
    (runScriptFile wOK ["feat"] [] "/repo").1.trace.length ≠ 3 := by
  decide

/-- C4 amended: the script text contains exactly the three tool call
sites — `git worktree add`, `cd`, `claude`, in that order — but no
invocation ever performs any of them: every run aborts with status 2 at
the parse error before the first call site, its trace empty. -/
theorem C4_call_sites_dead_text (w : World) (args : List String)
    (env : List (String × String)) (cwd : String) :
    toolSites createWorktreeScript = [ToolKind.git, ToolKind.cd, ToolKind.claude] ∧
    (runScriptFile w args env cwd).1.trace = [] ∧
    (runScriptFile w args env cwd).2 = 2 := by
  refine ⟨rfl, ?_, ?_⟩ <;> rw [runScriptFile_eq]

/-- C5: evaluation of the script file at the failing input — an
invocation on which `git worktree add` stands ready to fail.  The run
never reaches it: nothing is printed (in particular not "Worktree
creation failed"), no tool is invoked, and the exit status is the
parse-error status 2, never 1.  The claimed failure branch is the
intended error handling, but it is dead code behind the unterminated
`if`. -/
theorem C5_failure_branch_dead :
    (runScriptFile wGitFail ["feat"] [] "/repo").1.output = [] ∧
    (runScriptFile wGitFail ["feat"] [] "/repo").1.trace = [] ∧
    (runScriptFile wGitFail ["feat"] [] "/repo").2 = 2 ∧
    (runScriptFile wGitFail ["feat"] [] "/repo").2 ≠ 1 := by
  decide

/-- Command substitutions occurring in a word: the only way any
command's output can flow back into the script. -/
def wordSubs (w : Word) : List String :=
  w.foldr (fun p acc => match p with | .cmdSub c => c :: acc | _ => acc) []

/-- All command substitutions occurring anywhere in a command. -/
def cmdSubsOf : Cmd → List String
  | .echo m => wordSubs m
  | .assign _ w => wordSubs w
  | .testCmd ws => (ws.map wordSubs).flatten
  | .gitWorktreeAdd w => wordSubs w
  | .cdCmd w => wordSubs w
  | .seq c1 c2 => cmdSubsOf c1 ++ cmdSubsOf c2
  | .ifThenElse c t e => cmdSubsOf c ++ cmdSubsOf t ++ cmdSubsOf e
  | .orElse c1 c2 => cmdSubsOf c1 ++ cmdSubsOf c2
  | _ => []

/-- Number of `git worktree add` call sites in a command. -/
def gitCallCount : Cmd → Nat
  | .gitWorktreeAdd _ => 1
  | .seq c1 c2 => gitCallCount c1 + gitCallCount c2
  | .ifThenElse c t e => gitCallCount c + gitCallCount t + gitCallCount e
  | .orElse c1 c2 => gitCallCount c1 + gitCallCount c2
  | _ => 0

/-- Number of `claude` call sites in a command. -/
def claudeCallCount : Cmd → Nat
  | .claudeCmd => 1
  | .seq c1 c2 => claudeCallCount c1 + claudeCallCount c2
  | .ifThenElse c t e => claudeCallCount c + claudeCallCount t + claudeCallCount e
  | .orElse c1 c2 => claudeCallCount c1 + claudeCallCount c2
  | _ => 0

/-- The commands whose exit status the script branches on: conditions of
`if` statements and left operands of `||`. -/
def checkedConds : Cmd → List Cmd
  | .seq c1 c2 => checkedConds c1 ++ checkedConds c2
  | .ifThenElse c t e => [c] ++ checkedConds t ++ checkedConds e
  | .orElse c1 c2 => [c1] ++ checkedConds c2
  | _ => []

/-- C6: the script's handling of its external collaborators is a plain
process call each: the only command substitution anywhere in the script
is `$(pwd)`, so neither `git worktree add`'s nor `claude`'s output is
ever parsed; each is invoked from exactly one call site (no retry); and
the only exit statuses ever branched on are the guard test, the single
`git worktree add` check, and the `cd` check — `claude`'s status is
never examined. -/
theorem C6_plain_process_calls :
    cmdSubsOf createWorktreeScript = ["pwd"] ∧
    gitCallCount createWorktreeScript = 1 ∧
    claudeCallCount createWorktreeScript = 1 ∧
    checkedConds createWorktreeScript =
      [Cmd.testCmd guardWords, Cmd.gitWorktreeAdd [WordPart.var "WORKTREE_PATH"],
       Cmd.cdCmd [WordPart.lit "WORKTREE_PATH"]] :=
  ⟨rfl, rfl, rfl, rfl⟩

/-- C10 counterexample: with `cd` poised to fail, the concrete run still
exits with the parse-error status 2, not 1 — it never performs the `cd`
(or anything else), so the claimed return-1-on-cd-failure path does not
exist. -/
theorem C10_counterexample_exits_two :
    (runScriptFile wCdFail ["feat"] [] "/repo").2 = 2 ∧
    (runScriptFile wCdFail ["feat"] [] "/repo").2 ≠ 1 ∧
    (runScriptFile wCdFail ["feat"] [] "/repo").1.trace = [] := by
  decide

/-- C10 amended: `claude` is never invoked on any run — a fortiori never
without `git worktree add` and the `cd` succeeding — but not by the
claimed mechanism: no run performs any `cd`, and no run returns 1; every
run aborts with status 2 at the unterminated second `if` before the
`cd`-then-`claude` sequence. -/
theorem C10_claude_never_launched (w : World) (args : List String)
    (env : List (String × String)) (cwd : String) :
    ExtCall.claude ∉ (runScriptFile w args env cwd).1.trace ∧
    (∀ p, ExtCall.cd p ∉ (runScriptFile w args env cwd).1.trace) ∧
    (runScriptFile w args env cwd).2 = 2 := by
  rw [runScriptFile_eq]
  simp

/-- Markup tree rendered by a page component: an element with a tag,
`className` tokens and children, or a text node. -/
inductive Html where
  | el (tag : String) (classes : List String) (children : List Html)
  | text (s : String)

mutual

/-- The text nodes of a markup tree, in document order. -/
def Html.texts : Html → List String
  | .text s => [s]
  | .el _ _ cs => textsOf cs

/-- The text nodes of a list of markup trees, in document order. -/
def textsOf : List Html → List String
  | [] => []
  | c :: cs => c.texts ++ textsOf cs

end

/-- Transcription of the `Home` component of `src/app/page.tsx`: its body
is a single `return` of constant JSX. -/
def Home : Html :=
  .el "main" ["flex", "min-h-screen", "flex-col", "items-center", "justify-center", "p-24"]
    [.el "div" ["flex", "flex-col", "items-center", "gap-4"]
      [.el "h1" ["text-4xl", "font-bold"] [.text "Welcome to NomadHub"],
       .el "p" ["text-muted-foreground"]
         [.text "Next.js 15 + TypeScript + Tailwind CSS + shadcn/ui"]]]

/-- A render of `Home` in renderer state `s`.  The component function
takes no props and uses no hooks, so a render consults nothing, returns
the fixed markup, and leaves the renderer state untouched. -/
def renderHome {σ : Type} (s : σ) : Html × σ := (Home, s)

/-- C7: the `Home` landing page is a static render: every call, whatever
the renderer state, returns the same fixed markup — headed by the
`h1` headline "Welcome to NomadHub" with the subtitle text below — and
no state is created, mutated, or persisted across the render. -/
theorem C7_home_static_render :
    Home.texts = ["Welcome to NomadHub",
      "Next.js 15 + TypeScript + Tailwind CSS + shadcn/ui"] ∧
    (∀ (σ : Type) (s1 s2 : σ), (renderHome s1).1 = Home ∧
      (renderHome s1).1 = (renderHome s2).1 ∧ (renderHome s1).2 = s1) :=
  ⟨rfl, fun _ _ _ => ⟨rfl, rfl, rfl⟩⟩

end Nomadhub
